import Mathlib

/-!
Verification of the youtube-daily-summaries ingestion / pipeline layer.

Shallow embedding of the Python sources:
  * `src/app.py`            — Flask webhook handlers, `process_video`, `extract_id`,
                              `subscribe_to_channel`
  * `src/Summarizer.py`     — `TranscriptProcessor.extract_transcript`,
                              `generate_summary`, `process_video`
  * `src/cloud_storage.py`  — `CloudStorageManager.upload_summary` filename derivation
  * `src/unnamed/part_000`  — `WebSubSubscriber` (verify handshake, `subscribe`)

External collaborators (the transcript API, the generative-text model, the
storage backend, the WebSub hub and the HTTP layer) are modelled as explicit
parameters describing their observable outcome, exactly at the interface the
Python code consumes.
-/

/-! ## Definitions: the shallow embedding -/

/-- HTTP response as produced by the Flask handlers: a body string and a status
code.  Only these two observables matter to the claims. -/
structure HttpResp where
  body : String
  status : Nat
deriving DecidableEq

/-- Python truthiness of an optional string (`request.args.get` returns `None`
for an absent parameter; the empty string is falsy as well). -/
def truthy : Option String → Bool
  | none => false
  | some s => !s.isEmpty

/-- Embeds the GET branch of `youtube_webhook_legacy` (src/app.py lines 137-155)
and the identical GET branch of `WebSubSubscriber.setup_routes`
(src/unnamed/part_000 lines 23-37):

    if hub_mode == 'subscribe' and hub_challenge:
        return hub_challenge, 200
    return 'Verification Failed', 400

`hub.topic` and `hub.lease_seconds` are read and logged but never examined. -/
def webhook_verify (mode topic challenge : Option String) : HttpResp :=
  let _ := topic
  if mode = some "subscribe" && truthy challenge then
    { body := challenge.getD "", status := 200 }
  else
    { body := "Verification Failed", status := 400 }

/-- The acceptance condition claim C4 asserts (written from the spec sentence,
for comparison with the code): mode is subscribe or unsubscribe, and topic and
challenge are both present. -/
def specVerifyAccepted (mode topic challenge : Option String) : Prop :=
  (mode = some "subscribe" ∨ mode = some "unsubscribe")
    ∧ topic.isSome = true ∧ challenge.isSome = true

/-- Observable outcome of the outbound POST to the WebSub hub: either an HTTP
status code, or a network-level request exception. -/
inductive HubReply where
  | status (code : Nat)
  | netError (msg : String)

/-- Boolean prefix test on character lists (used instead of the library one so
its specification can be proved from first principles). -/
def beginsWith : List Char → List Char → Bool
  | [], _ => true
  | _ :: _, [] => false
  | a :: as, b :: bs => if a = b then beginsWith as bs else false

/-- Embeds `subscribe_to_channel` (src/app.py lines 306-336): posts the
form-encoded subscription and `return response.status_code == 202`; any raised
exception is caught and `False` returned. -/
def subscribe_to_channel (hub : HubReply) : Bool :=
  match hub with
  | HubReply.status code => code == 202
  | HubReply.netError _ => false

/-- Embeds `WebSubSubscriber.subscribe` (src/unnamed/part_000 lines 74-129):
rejects a non-https callback before any request, then posts to the hub and
`return response.status_code == 204`; a `requests.RequestException` is caught
and `False` returned. -/
def WebSub_subscribe (callback_url : String) (hub : HubReply) : Bool :=
  if beginsWith "https://".data callback_url.data then
    match hub with
    | HubReply.status code => code == 204
    | HubReply.netError _ => false
  else false

/-- The character class `upload_summary`'s sanitizer keeps:
`c.isalnum() or c in [' ', '_']` (src/cloud_storage.py line 65).  Note the
Python list does NOT contain the hyphen.  Python's `str.isalnum` is
Unicode-aware; the model uses the ASCII alphanumerics, so the embedding is
faithful on ASCII input (the theorems about it carry an ASCII hypothesis). -/
def keepChar (c : Char) : Bool := c.isAlphanum || c = ' ' || c = '_'

/-- Character-wise replacement step of the sanitizer, before `rstrip`. -/
def sanitizedCore (name : String) : List Char :=
  name.data.map (fun c => if keepChar c then c else '_')

/-- Python `str.rstrip()`: drop trailing whitespace.  After `sanitizedCore`
the only whitespace character that can remain is the space, for which the
Python and Lean whitespace classes agree. -/
def dropTrailingSpaces (l : List Char) : List Char :=
  (l.reverse.dropWhile (fun c => c.isWhitespace)).reverse

/-- Embeds `sanitize_filename` (src/cloud_storage.py lines 64-65):
`''.join(c if c.isalnum() or c in [' ', '_'] else '_' for c in name).rstrip()`. -/
def sanitize_filename (name : String) : String :=
  String.mk (dropTrailingSpaces (sanitizedCore name))

/-- Embeds the filename built by `CloudStorageManager.upload_summary`
(src/cloud_storage.py lines 67-72).  The Python code computes
`timestamp = datetime.now().strftime("%Y%m%d_%H%M%S")` and then never uses it;
the wall-clock reading is therefore an explicit `now` parameter here, bound to
an unused local exactly as in the source.  The `video_id` argument is accepted
and never used either: the name is
`summaries/{channel_id}/{sanitized_channel_name}_{sanitized_video_title}_summary.txt`. -/
def upload_summary_filename (now video_id channel_id video_title channel_name : String) : String :=
  let _timestamp := now
  let _vid := video_id
  "summaries/" ++ channel_id ++ "/" ++ sanitize_filename channel_name ++ "_"
    ++ sanitize_filename video_title ++ "_summary.txt"

/-- Observable outcome of the transcript collaborator
(`youtube_transcript_api`), at the interface `extract_transcript` consumes: the
fetched transcript text, a `TranscriptsDisabled` report, a no-transcript-found
report, or any other raised exception. -/
inductive FetchOutcome where
  | text (t : String)
  | disabled
  | notFound
  | raised (msg : String)

/-- Observable outcome of the generative-text collaborator (`genai`): a
response text, or a raised exception. -/
inductive GenOutcome where
  | text (t : String)
  | raised (msg : String)

/-- Embeds `TranscriptProcessor.extract_transcript` (src/Summarizer.py lines
96-164).  Every collaborator failure mode — `TranscriptsDisabled`, no
transcripts available, any other exception — is caught inside the function and
mapped to `None`; a fetched transcript is returned only if the joined text is
nonempty (line 147: `if not full_transcript: return None`).  The
manual/generated/first-available language-preference chain selects which
transcript the collaborator yields and is folded into `FetchOutcome.text`. -/
def extract_transcript (fetch : String → FetchOutcome) (video_id : String) : Option String :=
  match fetch video_id with
  | FetchOutcome.text t => if t.isEmpty then none else some t
  | FetchOutcome.disabled => none
  | FetchOutcome.notFound => none
  | FetchOutcome.raised _ => none

/-- Python `str.strip()`: drop leading and trailing whitespace (the
whitespace characters relevant here are shared by the Python and Lean
classes). -/
def pyStrip (s : String) : String :=
  String.mk (dropTrailingSpaces (s.data.dropWhile (fun c => c.isWhitespace)))

/-- The prompt built by `generate_summary` (src/Summarizer.py lines 193-200):
fixed instruction text with the (possibly truncated) transcript appended. -/
def summaryPrompt (t : String) : String :=
  "Please generate a concise, informative summary of the following transcript. "
    ++ "Focus on the key points, main ideas, and most important information. "
    ++ "Transcript: " ++ t

/-- Embeds `TranscriptProcessor.generate_summary` (src/Summarizer.py lines
166-231), instrumented with the number of calls made to the generative model
(the second component).  `None` or empty input is rejected before the model is
invoked; transcripts longer than 10000 characters are truncated; a raised model
exception is caught and mapped to `None`; an empty response text is `None`,
otherwise the stripped response is returned. -/
def generate_summary_t (model : String → GenOutcome) (transcript : Option String) :
    Option String × Nat :=
  match transcript with
  | none => (none, 0)
  | some t =>
    if t.isEmpty then (none, 0)
    else
      let t2 := if t.length > 10000 then String.mk (t.data.take 10000) else t
      match model (summaryPrompt t2) with
      | GenOutcome.raised _ => (none, 1)
      | GenOutcome.text r => if r.isEmpty then (none, 1) else (some (pyStrip r), 1)

/-- `generate_summary` without the instrumentation. -/
def generate_summary (model : String → GenOutcome) (transcript : Option String) : Option String :=
  (generate_summary_t model transcript).1

/-- The filename string built by `process_video` in src/app.py line 274. -/
def app_summary_filename (video_id : String) : String :=
  "summaries/" ++ video_id ++ "_summary.txt"

/-- Embeds `process_video` (src/app.py lines 265-277), instrumented with the
number of generative-model calls.  The function has no try/except of its own:

  * `transcript = summarizer.extract_transcript(video_id)` then
    `len(transcript)` — a `None` transcript raises `TypeError` (line 269);
  * `summary = summarizer.generate_summary(transcript)` then `len(summary)` —
    a `None` summary raises `TypeError` (line 272);
  * `cloud_storage.upload_summary(summary=summary, filename=filename)`
    (line 275) — `CloudStorageManager.upload_summary` is declared as
    `upload_summary(self, summary, video_id, channel_id, video_title,
    channel_name)` (src/cloud_storage.py line 52), which has no `filename`
    parameter, so Python raises `TypeError` at the call itself.

An `Except.error` value is an exception propagating out of `process_video` to
its caller. -/
def app_process_video_t (fetch : String → FetchOutcome) (model : String → GenOutcome)
    (video_id : String) : Except String Bool × Nat :=
  match extract_transcript fetch video_id with
  | none => (Except.error "TypeError: object of type NoneType has no len()", 0)
  | some transcript =>
    match generate_summary_t model (some transcript) with
    | (none, n) => (Except.error "TypeError: object of type NoneType has no len()", n)
    | (some _, n) =>
      let _filename := app_summary_filename video_id
      (Except.error "TypeError: upload_summary() got an unexpected keyword argument", n)

/-- `app.py`'s `process_video` without the instrumentation. -/
def app_process_video (fetch : String → FetchOutcome) (model : String → GenOutcome)
    (video_id : String) : Except String Bool :=
  (app_process_video_t fetch model video_id).1

/-- Embeds `TranscriptProcessor.process_video` (src/Summarizer.py lines
233-277), instrumented with the number of generative-model calls.  The whole
body sits in a `try` whose `except` returns `False`; the body checks
`if not transcript: return False` before touching the transcript and
`if not summary: return False` before reporting success, so with the
collaborator outcomes modelled explicitly no exception can escape and the
result is a plain boolean. -/
def TP_process_video_t (fetch : String → FetchOutcome) (model : String → GenOutcome)
    (video_id : String) : Bool × Nat :=
  match extract_transcript fetch video_id with
  | none => (false, 0)
  | some transcript =>
    if transcript.isEmpty then (false, 0)
    else
      match generate_summary_t model (some transcript) with
      | (none, n) => (false, n)
      | (some summary, n) => (if summary.isEmpty then false else true, n)

/-- `TranscriptProcessor.process_video` without the instrumentation. -/
def TP_process_video (fetch : String → FetchOutcome) (model : String → GenOutcome)
    (video_id : String) : Bool :=
  (TP_process_video_t fetch model video_id).1

/-- The allowed identifier alphabet `[a-zA-Z0-9_-]`. -/
def isIdChar (c : Char) : Bool := c.isAlphanum || c = '_' || c = '-'

/-- An anchored match of `([a-zA-Z0-9_-]-x-11)` at the head of `s`: eleven
identifier characters, captured. -/
def grab11 (s : List Char) : Option (List Char) :=
  let t := s.take 11
  if t.length = 11 ∧ t.all isIdChar = true then some t else none

/-- An anchored match of one of `extract_id`'s patterns at the head of `s`:
the literal `lit` followed by an eleven-character capture. -/
def tryPat (lit : List Char) (s : List Char) : Option (List Char) :=
  if beginsWith lit s then grab11 (s.drop lit.length) else none

/-- `re.search` for one of `extract_id`'s patterns: try every start position
left to right, return the leftmost capture. -/
def searchPat (lit : List Char) : List Char → Option (List Char)
  | [] => tryPat lit []
  | c :: rest =>
    match tryPat lit (c :: rest) with
    | some t => some t
    | none => searchPat lit rest

/-- The pattern literals of `extract_id` (src/app.py lines 287-293), in source
order: `v=`, `youtu.be/`, `embed/`, `shorts/`, `watch?v=` (each followed by the
11-character capture group). -/
def vPat : List Char := ['v', '=']

def bePat : List Char := ['y', 'o', 'u', 't', 'u', '.', 'b', 'e', '/']

def embedPat : List Char := ['e', 'm', 'b', 'e', 'd', '/']

def shortsPat : List Char := ['s', 'h', 'o', 'r', 't', 's', '/']

def watchPat : List Char := ['w', 'a', 't', 'c', 'h', '?', 'v', '=']

def url_patterns : List (List Char) := [vPat, bePat, embedPat, shortsPat, watchPat]

/-- The four canonical URL shapes named by the claim (the source's fifth
pattern, `watch?v=`, is subsumed by `v=`). -/
def claimPatterns : List (List Char) := [vPat, bePat, embedPat, shortsPat]

/-- First pattern of the list with a match anywhere in `s`, its capture. -/
def firstPatMatch : List (List Char) → List Char → Option (List Char)
  | [], _ => none
  | p :: ps, s =>
    match searchPat p s with
    | some t => some t
    | none => firstPatMatch ps s

/-- Embeds `extract_id` (src/app.py lines 285-304) on the character list: try
the five URL patterns in order, then fall back to the first bare 11-character
identifier run, else `None`. -/
def extract_core (s : List Char) : Option (List Char) :=
  match firstPatMatch url_patterns s with
  | some t => some t
  | none => searchPat [] s

/-- Embeds `extract_id` (src/app.py lines 285-304). -/
def extract_id (text : String) : Option String :=
  (extract_core text.data).map String.mk

/-- One element of the Superfeedr `items` array, at the fields the handler
reads: `item.get('permalinkUrl', '')`. -/
structure SfItem where
  permalinkUrl : Option String

/-- The shapes of an inbound `POST /webhook` body as `request.get_json()`
classifies them: a body that is not parseable JSON (including the empty body),
for which `get_json` raises; a parsed payload that is falsy (`null`); a parsed
object without an `items` key; or an object with an `items` array. -/
inductive SfBody where
  | notJson
  | jsonNull
  | jsonNoItems
  | jsonItems (items : List SfItem)

/-- The observable response of `youtube_webhook`: the JSON `status` field, the
JSON `message` field (error responses), the `processed_videos` list (success
responses; modelled as `[]` on error responses, which carry no list), and the
HTTP status code. -/
structure SfResp where
  statusField : String
  message : String
  processed_videos : List String
  httpStatus : Nat
deriving DecidableEq

/-- Sublist containment test: does `lit` occur contiguously inside `s`?
(Python's `'youtube.com' in video_url`.) -/
def containsLit (lit : List Char) : List Char → Bool
  | [] => beginsWith lit []
  | c :: rest => beginsWith lit (c :: rest) || containsLit lit rest

/-- One iteration of the `for item in payload['items']` loop (src/app.py lines
99-116): read `permalinkUrl` (default `''`), require a YouTube URL, extract an
identifier, call `process_video` inside a per-item `try`, and append the id to
`processed_videos` only if no exception was raised.  Returns the ids this item
contributes. -/
def webhook_items_step (proc : String → Except String Bool) (item : SfItem) : List String :=
  let url := item.permalinkUrl.getD ""
  if containsLit "youtube.com".data url.data || containsLit "youtu.be".data url.data then
    match extract_id url with
    | some vid =>
      match proc vid with
      | Except.ok _ => [vid]
      | Except.error _ => []
    | none => []
  else []

/-- The whole loop, in delivery order. -/
def processItems (proc : String → Except String Bool) : List SfItem → List String
  | [] => []
  | item :: rest => webhook_items_step proc item ++ processItems proc rest

/-- Embeds `youtube_webhook` POST (src/app.py lines 80-127).  A JSON parse
failure raises inside the handler's `try` and is caught by its
`except Exception` (500, `Processing Error`); a falsy payload or one without
`items` yields 400 `Invalid payload`; otherwise each item is processed with
per-item exception isolation and the handler always answers 200 `success`. -/
def youtube_webhook_post (proc : String → Except String Bool) : SfBody → SfResp
  | SfBody.notJson => ⟨"error", "Processing Error", [], 500⟩
  | SfBody.jsonNull => ⟨"error", "Invalid payload", [], 400⟩
  | SfBody.jsonNoItems => ⟨"error", "Invalid payload", [], 400⟩
  | SfBody.jsonItems items => ⟨"success", "", processItems proc items, 200⟩

/-- An XML element as `xml.etree.ElementTree` exposes it: a tag (written here
with the `yt:` shorthand for the resolved
`http://www.youtube.com/xml/feeds/videos` namespace), optional text content,
and child elements. -/
inductive XmlNode where
  | node (tag : String) (text : Option String) (children : List XmlNode)

mutual
/-- Texts of all `yt:videoId` elements of a subtree, self included, in
document (pre-)order. -/
def nodeVideoIds : XmlNode → List (Option String)
  | XmlNode.node tag text children =>
    (if tag = "yt:videoId" then [text] else []) ++ listVideoIds children

/-- Texts of all `yt:videoId` elements of a forest, in document order. -/
def listVideoIds : List XmlNode → List (Option String)
  | [] => []
  | n :: ns => nodeVideoIds n ++ listVideoIds ns
end

/-- `root.find('.//yt:videoId', namespaces)` — the `yt:videoId` descendants of
the root, in document order (`find` returns the head of this list). -/
def descVideoIds : XmlNode → List (Option String)
  | XmlNode.node _ _ children => listVideoIds children

/-- The shapes of an inbound `POST /youtube_webhook` body: empty (the handler
returns 200 before parsing), unparseable XML (`ET.ParseError` → 400), or a
parsed document. -/
inductive XmlBody where
  | empty
  | malformed
  | xml (root : XmlNode)

/-- Response of the legacy WebSub handler together with the list of video ids
handed to `process_video` (the notification events the delivery produced). -/
structure LegacyResp where
  body : String
  status : Nat
  processed : List String
deriving DecidableEq

/-- Embeds the POST branch of `youtube_webhook_legacy` (src/app.py lines
157-206): an empty body is acknowledged with 200; a parse error yields 400;
otherwise `find('.//yt:videoId')` selects the first `yt:videoId` element and,
if its text is truthy, exactly that one video is processed — a raised
`process_video` exception is caught by the inner `except` (500), a falsy
return also yields 500, success yields 200.  No other entry of the document is
ever examined. -/
def webhook_legacy_post (proc : String → Except String Bool) : XmlBody → LegacyResp
  | XmlBody.empty => ⟨"", 200, []⟩
  | XmlBody.malformed => ⟨"", 400, []⟩
  | XmlBody.xml root =>
    match (descVideoIds root).head? with
    | some (some t) =>
      if t.isEmpty then ⟨"", 200, []⟩
      else
        match proc t with
        | Except.ok true => ⟨"", 200, [t]⟩
        | Except.ok false => ⟨"", 500, [t]⟩
        | Except.error _ => ⟨"", 500, [t]⟩
    | some none => ⟨"", 200, []⟩
    | none => ⟨"", 200, []⟩

/-- An Atom feed with two entries bearing distinct `yt:videoId`s. -/
def twoEntryFeed : XmlNode :=
  XmlNode.node "feed" none
    [XmlNode.node "entry" none [XmlNode.node "yt:videoId" (some "AAAAAAAAAAA") []],
      XmlNode.node "entry" none [XmlNode.node "yt:videoId" (some "BBBBBBBBBBB") []]]

/-! ## Theorems -/

/-- A nonempty string has `isEmpty = false`. -/
theorem isEmpty_false_of_ne (c : String) (h : c ≠ "") : c.isEmpty = false := by
  cases hb : c.isEmpty
  · rfl
  · exact absurd ((String.isEmpty_iff c).mp hb) h

/-- C4 counterexample: the triple (mode = unsubscribe, topic present, challenge
present) satisfies the claim's acceptance condition, so the claim demands a 2xx
echo of the challenge; the code rejects it with status 400. -/
theorem C4_counterexample :
    specVerifyAccepted (some "unsubscribe") (some "topic-url") (some "abc123")
    ∧ (webhook_verify (some "unsubscribe") (some "topic-url") (some "abc123")).status = 400 := by
  constructor
  · exact ⟨Or.inr rfl, rfl, rfl⟩
  · decide

/-- C4 amended: a verification request is accepted iff `mode = subscribe` and a
nonempty `challenge` is supplied; `topic` is never examined and `unsubscribe`
verification is rejected.  On acceptance the body is exactly the challenge with
status 200; every other combination gets status 400, and no other status is
ever produced. -/
theorem C4_verify_amended (mode topic challenge : Option String) :
    ((200 ≤ (webhook_verify mode topic challenge).status
        ∧ (webhook_verify mode topic challenge).status < 300)
      ↔ (mode = some "subscribe" ∧ ∃ c, challenge = some c ∧ c ≠ ""))
    ∧ (∀ c, challenge = some c → c ≠ "" → mode = some "subscribe" →
        webhook_verify mode topic challenge = { body := c, status := 200 })
    ∧ ((webhook_verify mode topic challenge).status = 200
        ∨ (webhook_verify mode topic challenge).status = 400) := by
  refine ⟨⟨fun h => ?_, fun h => ?_⟩, fun c hc hne hm => ?_, ?_⟩
  · by_cases hcond : (mode = some "subscribe" && truthy challenge) = true
    · rcases Bool.and_eq_true_iff.mp hcond with ⟨hm, ht⟩
      refine ⟨by simpa using hm, ?_⟩
      cases challenge with
      | none => simp [truthy] at ht
      | some c =>
        refine ⟨c, rfl, ?_⟩
        simp only [truthy, Bool.not_eq_true'] at ht
        exact fun he => by subst he; exact absurd ht (by decide)
    · exfalso
      simp only [webhook_verify, hcond, Bool.if_false_left] at h
      rcases h with ⟨_, hlt⟩
      simp only [Bool.false_eq_true, if_false] at hlt
      omega
  · rcases h with ⟨hm, c, hc, hne⟩
    have hcond : (mode = some "subscribe" && truthy challenge) = true := by
      subst hc
      simp [hm, truthy, isEmpty_false_of_ne c hne]
    simp [webhook_verify, hcond]
  · subst hc hm
    have ht : truthy (some c) = true := by
      simp [truthy, isEmpty_false_of_ne c hne]
    simp [webhook_verify, ht, Option.getD]
  · by_cases hcond : (mode = some "subscribe" && truthy challenge) = true
    · left; simp [webhook_verify, hcond]
    · right
      simp only [webhook_verify]
      rw [if_neg (by simpa using hcond)]

/-- C4 witness: a concrete subscribe verification with challenge `abc123`
echoes the challenge with status 200. -/
theorem C4_witness :
    webhook_verify (some "subscribe") (some "topic-url") (some "abc123")
      = { body := "abc123", status := 200 } :=
  (C4_verify_amended (some "subscribe") (some "topic-url") (some "abc123")).2.1
    "abc123" rfl (by decide) rfl

/-- C9 counterexample: the claim says a hub acknowledgment of 202 or 204 is
reported as success by `subscribe`; `subscribe_to_channel` returns `false` on
204, and `WebSubSubscriber.subscribe` returns `false` on 202. -/
theorem C9_counterexample :
    subscribe_to_channel (HubReply.status 204) = false
    ∧ WebSub_subscribe "https://cb.example.com/webhook" (HubReply.status 202) = false := by
  decide

/-- C9 amended: each subscriber accepts exactly one acknowledgment code —
`subscribe_to_channel` returns true iff the hub answered 202, and
`WebSubSubscriber.subscribe` returns true iff the callback is https and the hub
answered 204; in both, a network exception is caught and reported as `false`,
never raised. -/
theorem C9_subscribe_amended (code : Nat) (cb : String) (msg : String) :
    (subscribe_to_channel (HubReply.status code) = true ↔ code = 202)
    ∧ subscribe_to_channel (HubReply.netError msg) = false
    ∧ (WebSub_subscribe cb (HubReply.status code) = true
        ↔ (beginsWith "https://".data cb.data = true ∧ code = 204))
    ∧ WebSub_subscribe cb (HubReply.netError msg) = false := by
  refine ⟨?_, rfl, ?_, ?_⟩
  · simp [subscribe_to_channel, Nat.beq_eq_true_eq]
  · by_cases h : beginsWith "https://".data cb.data = true
    · simp [WebSub_subscribe, h, Nat.beq_eq_true_eq]
    · simp [WebSub_subscribe, h]
  · by_cases h : beginsWith "https://".data cb.data = true
    · simp [WebSub_subscribe, h]
    · simp [WebSub_subscribe, h]

/-- C5 counterexample: the claim's sanitizer charset includes the hyphen and
the filename is claimed to depend on the video identifier and the date; in the
code the hyphen is replaced by an underscore, and two uploads that differ only
in video identifier and wall-clock date produce the identical filename. -/
theorem C5_counterexample :
    sanitize_filename "a-b" = "a_b"
    ∧ upload_summary_filename "20250101_000000" "AAAAAAAAAAA" "chan" "Title" "Name"
        = upload_summary_filename "20260202_111111" "BBBBBBBBBBB" "chan" "Title" "Name" := by
  constructor
  · decide
  · rfl

/-- C5 amended: the stored filename is a deterministic function of
`(channel_id, channel_name, video_title)` alone — the video identifier and the
wall-clock date do not influence it — and sanitization maps every character
outside alphanumeric-plus-`(space, underscore)` (hyphen NOT included) to an
underscore, keeps in-charset characters unchanged, and finally strips trailing
whitespace, so the result contains only in-charset characters. -/
theorem C5_sanitize_amended (name : String)
    (hascii : name.data.all (fun c => c.toNat < 128) = true) :
    (sanitize_filename name).data.all keepChar = true
    ∧ (∀ i : Nat, (sanitizedCore name)[i]?
        = (name.data[i]?).map (fun c => if keepChar c then c else '_'))
    ∧ (∀ now₁ now₂ v₁ v₂ cid title cname,
        upload_summary_filename now₁ v₁ cid title cname
          = upload_summary_filename now₂ v₂ cid title cname) := by
  refine ⟨?_, ?_, fun _ _ _ _ _ _ _ => rfl⟩
  · have hcore : ∀ c ∈ sanitizedCore name, keepChar c = true := by
      intro c hc
      rcases List.mem_map.mp hc with ⟨a, _, rfl⟩
      by_cases h : keepChar a = true
      · simpa [h] using h
      · simp only [h, if_neg]
        simp [keepChar]
    rw [List.all_eq_true]
    intro c hc
    have hc2 : c ∈ dropTrailingSpaces (sanitizedCore name) := hc
    have : c ∈ sanitizedCore name := by
      have hs : c ∈ (sanitizedCore name).reverse.dropWhile (fun c => c.isWhitespace) := by
        simpa [dropTrailingSpaces] using hc2
      have := (List.dropWhile_sublist (l := (sanitizedCore name).reverse)
        (p := fun c => c.isWhitespace)).subset hs
      simpa using this
    exact hcore c this
  · intro i
    simp [sanitizedCore]

/-- C5 witness: the amended theorem applied to the concrete ASCII name
`My Video-Title!`: the sanitized form contains only kept characters and the
character-wise description holds. -/
theorem C5_witness :
    (sanitize_filename "My Video-Title!").data.all keepChar = true
    ∧ upload_summary_filename "20250101_000000" "AAAAAAAAAAA" "c" "t" "n"
        = upload_summary_filename "20260202_111111" "BBBBBBBBBBB" "c" "t" "n" := by
  have h := C5_sanitize_amended "My Video-Title!" (by decide)
  exact ⟨h.1, h.2.2 "20250101_000000" "20260202_111111" "AAAAAAAAAAA" "BBBBBBBBBBB" "c" "t" "n"⟩

/-- C1 counterexample: with a transcript collaborator that reports
"no transcript found", `app.py`'s `process_video` does not return a result —
the `TypeError` raised by `len(None)` propagates to its caller. -/
theorem C1_counterexample :
    app_process_video (fun _ => FetchOutcome.notFound) (fun _ => GenOutcome.text "a summary")
        "dQw4w9WgXcQ"
      = Except.error "TypeError: object of type NoneType has no len()" := rfl

/-- C1 amended: the orchestrator `process_video` in src/app.py is not total —
on every collaborator behaviour it propagates an exception to its caller
(`TypeError` from `len(None)` when the transcript or summary stage fails, and
otherwise a `TypeError` at the storage call, whose keyword arguments do not
match `CloudStorageManager.upload_summary`).  The variant
`TranscriptProcessor.process_video` does catch every collaborator failure and
always returns a boolean, returning `false` whenever the transcript stage
yields nothing. -/
theorem C1_process_amended (fetch : String → FetchOutcome) (model : String → GenOutcome)
    (video_id : String) :
    (∃ msg, app_process_video fetch model video_id = Except.error msg)
    ∧ (extract_transcript fetch video_id = none →
        TP_process_video fetch model video_id = false) := by
  constructor
  · cases he : extract_transcript fetch video_id with
    | none =>
      exact ⟨"TypeError: object of type NoneType has no len()",
        by simp [app_process_video, app_process_video_t, he]⟩
    | some transcript =>
      rcases hg : generate_summary_t model (some transcript) with ⟨s, n⟩
      cases s with
      | none =>
        exact ⟨"TypeError: object of type NoneType has no len()",
          by simp [app_process_video, app_process_video_t, he, hg]⟩
      | some summary =>
        exact ⟨"TypeError: upload_summary() got an unexpected keyword argument",
          by simp [app_process_video, app_process_video_t, he, hg]⟩
  · intro he
    simp [TP_process_video, TP_process_video_t, he]

/-- C1 witness: the amended theorem at a concrete input — a transcript
collaborator reporting not-found makes `app.py`'s orchestrator raise while the
Summarizer orchestrator returns `false`. -/
theorem C1_witness :
    TP_process_video (fun _ => FetchOutcome.notFound) (fun _ => GenOutcome.text "a summary")
      "dQw4w9WgXcQ" = false :=
  (C1_process_amended (fun _ => FetchOutcome.notFound) (fun _ => GenOutcome.text "a summary")
    "dQw4w9WgXcQ").2 rfl

/-- C2 counterexample: on an event whose transcript collaborator returns empty
text, `app.py`'s `process_video` does not return a failure result (let alone
one carrying an error kind): it raises. -/
theorem C2_counterexample :
    app_process_video (fun _ => FetchOutcome.text "") (fun _ => GenOutcome.text "a summary")
        "aaaaaaaaaaa"
      = Except.error "TypeError: object of type NoneType has no len()" := rfl

/-- C2 amended: when the transcript collaborator returns empty text, or reports
transcripts disabled or not found, the summarization collaborator is never
invoked (zero model calls): `TranscriptProcessor.process_video` returns the
undifferentiated failure value `false` (no error-kind field exists), and
`app.py`'s `process_video` raises a `TypeError` before the summary stage. -/
theorem C2_no_transcript_amended (fetch : String → FetchOutcome) (model : String → GenOutcome)
    (video_id : String)
    (h : fetch video_id = FetchOutcome.text "" ∨ fetch video_id = FetchOutcome.disabled
        ∨ fetch video_id = FetchOutcome.notFound) :
    TP_process_video_t fetch model video_id = (false, 0)
    ∧ app_process_video_t fetch model video_id
        = (Except.error "TypeError: object of type NoneType has no len()", 0) := by
  have he : extract_transcript fetch video_id = none := by
    rcases h with h | h | h
    · simp only [extract_transcript, h]
      decide
    · simp [extract_transcript, h]
    · simp [extract_transcript, h]
  exact ⟨by simp [TP_process_video_t, he], by simp [app_process_video_t, he]⟩

/-- C2 witness: the amended theorem at a concrete input with an
empty-transcript collaborator. -/
theorem C2_witness :
    TP_process_video_t (fun _ => FetchOutcome.text "") (fun _ => GenOutcome.text "a summary")
        "aaaaaaaaaaa" = (false, 0)
    ∧ app_process_video_t (fun _ => FetchOutcome.text "") (fun _ => GenOutcome.text "a summary")
        "aaaaaaaaaaa"
      = (Except.error "TypeError: object of type NoneType has no len()", 0) :=
  C2_no_transcript_amended (fun _ => FetchOutcome.text "") (fun _ => GenOutcome.text "a summary")
    "aaaaaaaaaaa" (Or.inl rfl)

/-- C6 (code bug): the pipeline's storage call never succeeds — even with a
transcript collaborator and a generative model that both succeed,
`process_video` reaches the call
`cloud_storage.upload_summary(summary=summary, filename=filename)` and raises
`TypeError`, because `CloudStorageManager.upload_summary` has no `filename`
parameter; so no `ProcessingResult` with a `storage_url` is ever produced.
The deterministic-naming half of the claim does hold of the code: the filename
built by `upload_summary` ignores the wall-clock timestamp it computes, so two
calls that differ only in the clock reading produce identical names. -/
theorem C6_upload_call_raises :
    app_process_video (fun _ => FetchOutcome.text "an example transcript")
        (fun _ => GenOutcome.text "a fine summary") "dQw4w9WgXcQ"
      = Except.error "TypeError: upload_summary() got an unexpected keyword argument"
    ∧ upload_summary_filename "20250101_000000" "dQw4w9WgXcQ" "chan" "Video Title" "Channel Name"
        = upload_summary_filename "20260315_235959" "dQw4w9WgXcQ" "chan" "Video Title"
            "Channel Name" := ⟨rfl, rfl⟩

/-- C8: a body that is neither parseable XML nor parseable JSON, or is empty,
produces zero notification events and a structured response instead of an
unhandled exception: the JSON handler catches the parse failure (500,
`Processing Error`, no videos processed), the WebSub handler acknowledges an
empty body with 200 and answers 400 on an XML parse error, in every case with
an empty processed list — and this holds whatever the pipeline collaborator
does, exceptions included. -/
theorem C8_zero_events (proc : String → Except String Bool) :
    ((youtube_webhook_post proc SfBody.notJson).processed_videos = []
      ∧ (youtube_webhook_post proc SfBody.notJson).httpStatus = 500
      ∧ (youtube_webhook_post proc SfBody.notJson).statusField = "error")
    ∧ ((webhook_legacy_post proc XmlBody.empty).processed = []
      ∧ (webhook_legacy_post proc XmlBody.empty).status = 200)
    ∧ ((webhook_legacy_post proc XmlBody.malformed).processed = []
      ∧ (webhook_legacy_post proc XmlBody.malformed).status = 400) :=
  ⟨⟨rfl, rfl, rfl⟩, ⟨rfl, rfl⟩, ⟨rfl, rfl⟩⟩

/-- C10: on a JSON delivery carrying an `items` array, the handler answers
HTTP 200 with status field `success` even when processing every single item
raises: each per-item exception is caught inside the loop, the failing video is
omitted from `processed_videos`, and the response carries no error indication
at all. -/
theorem C10_failures_silent (items : List SfItem) (proc : String → Except String Bool)
    (h : ∀ v, ∃ m, proc v = Except.error m) :
    youtube_webhook_post proc (SfBody.jsonItems items)
      = { statusField := "success", message := "", processed_videos := [], httpStatus := 200 } := by
  suffices hp : processItems proc items = [] by
    simp [youtube_webhook_post, hp]
  induction items with
  | nil => rfl
  | cons item rest ih =>
    have hstep : webhook_items_step proc item = [] := by
      simp only [webhook_items_step]
      by_cases hc : (containsLit "youtube.com".data (item.permalinkUrl.getD "").data
          || containsLit "youtu.be".data (item.permalinkUrl.getD "").data) = true
      · rw [if_pos hc]
        cases hx : extract_id (item.permalinkUrl.getD "") with
        | none => rfl
        | some vid =>
          rcases h vid with ⟨m, hm⟩
          simp [hm]
      · rw [if_neg (by simpa using hc)]
    simp [processItems, hstep, ih]

/-- C10 witness: a delivery with one YouTube item whose processing raises is
still answered 200/`success` with an empty processed list. -/
theorem C10_witness :
    youtube_webhook_post (fun _ => Except.error "boom")
        (SfBody.jsonItems [⟨some "https://www.youtube.com/watch?v=dQw4w9WgXcQ"⟩])
      = { statusField := "success", message := "", processed_videos := [], httpStatus := 200 } :=
  C10_failures_silent [⟨some "https://www.youtube.com/watch?v=dQw4w9WgXcQ"⟩]
    (fun _ => Except.error "boom") (fun _ => ⟨"boom", rfl⟩)

/-- C7 counterexample: a document with two identifier-bearing entries (distinct
`yt:videoId`s, as `descVideoIds` shows) produces exactly ONE processed event,
not two — only the first `yt:videoId` in document order is handed to the
pipeline. -/
theorem C7_counterexample :
    descVideoIds twoEntryFeed = [some "AAAAAAAAAAA", some "BBBBBBBBBBB"]
    ∧ (webhook_legacy_post (fun _ => Except.ok true) (XmlBody.xml twoEntryFeed)).processed
        = ["AAAAAAAAAAA"] := by
  constructor
  · rfl
  · rfl

/-- The processed list of the WebSub POST handler, as a function of the
document's `yt:videoId` elements alone. -/
theorem legacy_processed_eq (proc : String → Except String Bool) (root : XmlNode) :
    (webhook_legacy_post proc (XmlBody.xml root)).processed
      = (match (descVideoIds root).head? with
          | some (some t) => if t.isEmpty then [] else [t]
          | some none => []
          | none => []) := by
  simp only [webhook_legacy_post]
  cases (descVideoIds root).head? with
  | none => rfl
  | some o =>
    cases o with
    | none => rfl
    | some t =>
      by_cases ht : t.isEmpty
      · simp [ht]
      · cases hp : proc t with
        | ok b => cases b <;> simp [ht, hp]
        | error m => simp [ht, hp]

/-- C7 amended: one delivery produces at most one notification event,
whatever the document and whatever the pipeline does; when the first
`yt:videoId` element in document order has nonempty text, exactly that
identifier is the delivery's single event. -/
theorem C7_single_event_amended (root : XmlNode) (proc : String → Except String Bool) :
    (webhook_legacy_post proc (XmlBody.xml root)).processed.length ≤ 1
    ∧ (∀ t, (descVideoIds root).head? = some (some t) → t ≠ "" →
        (webhook_legacy_post proc (XmlBody.xml root)).processed = [t]) := by
  constructor
  · rw [legacy_processed_eq]
    cases hh : (descVideoIds root).head? with
    | none => simp
    | some o =>
      cases o with
      | none => simp
      | some t =>
        by_cases ht : t.isEmpty
        · simp [ht]
        · simp [ht]
  · intro t hh ht
    rw [legacy_processed_eq, hh]
    simp [isEmpty_false_of_ne t ht]

/-- C7 witness: the amended theorem on the two-entry document, with a pipeline
that raises — the single event is still the first entry's identifier. -/
theorem C7_witness :
    (webhook_legacy_post (fun _ => Except.error "boom") (XmlBody.xml twoEntryFeed)).processed
      = ["AAAAAAAAAAA"] :=
  (C7_single_event_amended twoEntryFeed (fun _ => Except.error "boom")).2
    "AAAAAAAAAAA" rfl (by decide)

/-- `beginsWith` decides the prefix relation. -/
theorem beginsWith_iff (l₁ l₂ : List Char) :
    beginsWith l₁ l₂ = true ↔ ∃ r, l₂ = l₁ ++ r := by
  induction l₁ generalizing l₂ with
  | nil => simp [beginsWith]
  | cons a as ih =>
    cases l₂ with
    | nil =>
      simp [beginsWith]
    | cons b bs =>
      by_cases hab : a = b
      · subst hab
        rw [show beginsWith (a :: as) (a :: bs) = beginsWith as bs from by
          simp [beginsWith]]
        rw [ih]
        constructor
        · rintro ⟨r, rfl⟩; exact ⟨r, rfl⟩
        · rintro ⟨r, hr⟩
          injection hr with _ h2
          exact ⟨r, h2⟩
      · simp only [beginsWith, if_neg hab]
        constructor
        · intro h; exact absurd h (by simp)
        · rintro ⟨r, hr⟩
          injection hr with h1 _
          exact absurd h1.symm hab

/-- If the pattern has an anchored match at position `i` and at no position
before it, `re.search` (modelled by `searchPat`) returns that match's
capture. -/
theorem searchPat_some_of (lit : List Char) (s : List Char) (i : Nat) (t : List Char)
    (hm : tryPat lit (s.drop i) = some t)
    (hmin : ∀ j, j < i → tryPat lit (s.drop j) = none) :
    searchPat lit s = some t := by
  induction s generalizing i with
  | nil =>
    rw [List.drop_nil] at hm
    simpa [searchPat] using hm
  | cons c rest ih =>
    cases i with
    | zero =>
      rw [List.drop_zero] at hm
      simp [searchPat, hm]
    | succ n =>
      have h0 : tryPat lit (c :: rest) = none := by
        have := hmin 0 (Nat.succ_pos n)
        simpa using this
      rw [List.drop_succ_cons] at hm
      have hmin2 : ∀ j, j < n → tryPat lit (rest.drop j) = none := by
        intro j hj
        have := hmin (j + 1) (Nat.succ_lt_succ hj)
        simpa [List.drop_succ_cons] using this
      simp [searchPat, h0, ih n hm hmin2]

/-- A successful `searchPat` comes from an anchored match at some position. -/
theorem searchPat_some_exists (lit s t : List Char) (h : searchPat lit s = some t) :
    ∃ i, tryPat lit (s.drop i) = some t := by
  induction s with
  | nil =>
    refine ⟨0, ?_⟩
    rw [List.drop_nil]
    simpa [searchPat] using h
  | cons c rest ih =>
    cases h0 : tryPat lit (c :: rest) with
    | some u =>
      have hs : searchPat lit (c :: rest) = some u := by simp [searchPat, h0]
      rw [hs] at h
      have hu : u = t := Option.some.inj h
      subst hu
      exact ⟨0, by simpa using h0⟩
    | none =>
      have hs : searchPat lit (c :: rest) = searchPat lit rest := by simp [searchPat, h0]
      rw [hs] at h
      rcases ih h with ⟨i, hi⟩
      exact ⟨i + 1, by simpa [List.drop_succ_cons] using hi⟩

/-- `searchPat` fails exactly when the pattern matches at no position. -/
theorem searchPat_none_iff (lit s : List Char) :
    searchPat lit s = none ↔ ∀ i, tryPat lit (s.drop i) = none := by
  induction s with
  | nil =>
    constructor
    · intro h i
      rw [List.drop_nil]
      simpa [searchPat] using h
    · intro h
      have := h 0
      rw [List.drop_nil] at this
      simpa [searchPat] using this
  | cons c rest ih =>
    cases h0 : tryPat lit (c :: rest) with
    | some u =>
      constructor
      · intro h
        have hs : searchPat lit (c :: rest) = some u := by simp [searchPat, h0]
        rw [hs] at h
        exact absurd h (Option.some_ne_none u)
      · intro h
        have h₀ := h 0
        rw [List.drop_zero, h0] at h₀
        exact absurd h₀ (Option.some_ne_none u)
    | none =>
      have hs : searchPat lit (c :: rest) = searchPat lit rest := by simp [searchPat, h0]
      rw [hs, ih]
      constructor
      · intro h i
        cases i with
        | zero => simpa using h0
        | succ j => simpa [List.drop_succ_cons] using h j
      · intro h j
        have := h (j + 1)
        simpa [List.drop_succ_cons] using this

/-- Subsumption: an anchored `watch?v=` match at position `i` contains an
anchored `v=` match at position `i + 6` with the same capture (hence the
source's fifth pattern can never fire when `v=` has no match). -/
theorem tryPat_watch_to_v (s : List Char) (i : Nat) (t : List Char)
    (h : tryPat watchPat (s.drop i) = some t) :
    tryPat vPat (s.drop (i + 6)) = some t := by
  unfold tryPat at h
  by_cases hb : beginsWith watchPat (s.drop i) = true
  · rw [if_pos hb] at h
    rcases (beginsWith_iff watchPat (s.drop i)).mp hb with ⟨r, hr⟩
    have hdd : (s.drop i).drop 6 = s.drop (i + 6) := by
      rw [List.drop_drop, Nat.add_comm]
    have hd6 : s.drop (i + 6) = vPat ++ r := by
      rw [← hdd, hr]
      rfl
    unfold tryPat
    have hb2 : beginsWith vPat (s.drop (i + 6)) = true := by
      rw [hd6]
      exact (beginsWith_iff vPat (vPat ++ r)).mpr ⟨r, rfl⟩
    rw [if_pos hb2, hd6]
    rw [hr] at h
    rw [show (watchPat ++ r).drop watchPat.length = r from rfl] at h
    rw [show (vPat ++ r).drop vPat.length = r from rfl]
    exact h
  · rw [if_neg hb] at h
    exact absurd h (by simp)

/-- A successful `firstPatMatch` is some member pattern's search result. -/
theorem firstPatMatch_some_exists (ps : List (List Char)) (s t : List Char)
    (h : firstPatMatch ps s = some t) :
    ∃ p ∈ ps, searchPat p s = some t := by
  induction ps with
  | nil => simp [firstPatMatch] at h
  | cons p ps ih =>
    cases hp : searchPat p s with
    | some u =>
      have hf : firstPatMatch (p :: ps) s = some u := by simp [firstPatMatch, hp]
      rw [hf] at h
      exact ⟨p, by simp, by rw [hp, Option.some.inj h]⟩
    | none =>
      have hf : firstPatMatch (p :: ps) s = firstPatMatch ps s := by
        simp [firstPatMatch, hp]
      rw [hf] at h
      rcases ih h with ⟨q, hq, hsq⟩
      exact ⟨q, by simp [hq], hsq⟩

/-- `firstPatMatch` fails exactly when every member pattern's search fails. -/
theorem firstPatMatch_none_iff (ps : List (List Char)) (s : List Char) :
    firstPatMatch ps s = none ↔ ∀ p ∈ ps, searchPat p s = none := by
  induction ps with
  | nil => simp [firstPatMatch]
  | cons p ps ih =>
    cases hp : searchPat p s with
    | some u =>
      constructor
      · intro h
        have hf : firstPatMatch (p :: ps) s = some u := by simp [firstPatMatch, hp]
        rw [hf] at h
        exact absurd h (Option.some_ne_none u)
      · intro h
        have := h p (by simp)
        rw [hp] at this
        exact absurd this (Option.some_ne_none u)
    | none =>
      have hf : firstPatMatch (p :: ps) s = firstPatMatch ps s := by
        simp [firstPatMatch, hp]
      rw [hf, ih]
      constructor
      · intro h q hq
        rcases List.mem_cons.mp hq with rfl | hq2
        · exact hp
        · exact h q hq2
      · intro h q hq
        exact h q (List.mem_cons_of_mem p hq)

/-- If some member pattern matches, `firstPatMatch` succeeds. -/
theorem firstPatMatch_isSome (ps : List (List Char)) (s : List Char) (p : List Char)
    (hp : p ∈ ps) (t : List Char) (h : searchPat p s = some t) :
    ∃ u, firstPatMatch ps s = some u := by
  cases hf : firstPatMatch ps s with
  | some u => exact ⟨u, rfl⟩
  | none =>
    have := (firstPatMatch_none_iff ps s).mp hf p hp
    rw [h] at this
    exact absurd this (Option.some_ne_none t)

/-- The empty pattern literal makes `tryPat` the bare 11-character capture,
i.e. the fallback regex of `extract_id`. -/
theorem tryPat_nil (u : List Char) : tryPat [] u = grab11 u := by
  simp [tryPat, beginsWith]

/-- The claim's four canonical patterns are among the source's five. -/
theorem claimPatterns_sub (p : List Char) (hp : p ∈ claimPatterns) : p ∈ url_patterns := by
  simp only [claimPatterns, List.mem_cons, List.not_mem_nil, or_false] at hp
  simp only [url_patterns, List.mem_cons, List.not_mem_nil, or_false]
  tauto

/-- Every source pattern is a claim pattern or the subsumed `watch?v=`. -/
theorem url_patterns_cases (p : List Char) (hp : p ∈ url_patterns) :
    p ∈ claimPatterns ∨ p = watchPat := by
  simp only [url_patterns, List.mem_cons, List.not_mem_nil, or_false] at hp
  simp only [claimPatterns, List.mem_cons, List.not_mem_nil, or_false]
  tauto

/-- C3: `extract_id` follows the three-step priority algorithm.
1. The `v=` pattern has top priority: its leftmost anchored match's
   11-character capture is returned verbatim, whatever surrounds it.
2. If any of the four canonical URL patterns (`v=`, `youtu.be/`, `embed/`,
   `shorts/`) matches anywhere, the result is exactly the 11-character capture
   of one of those patterns at one of its match positions.
3. If no canonical URL pattern matches anywhere, the leftmost bare
   11-character identifier run is returned.
4. If neither matches, the result is `none` (and no exception: `extract_id`
   is a total function). -/
theorem C3_extract_algorithm (text : String) :
    (∀ i t, tryPat vPat (text.data.drop i) = some t →
        (∀ j, j < i → tryPat vPat (text.data.drop j) = none) →
        extract_id text = some (String.mk t))
    ∧ ((∃ p ∈ claimPatterns, ∃ i t, tryPat p (text.data.drop i) = some t) →
        ∃ p ∈ claimPatterns, ∃ i t, tryPat p (text.data.drop i) = some t
          ∧ extract_id text = some (String.mk t))
    ∧ ((∀ p ∈ claimPatterns, ∀ i, tryPat p (text.data.drop i) = none) →
        ∀ i t, grab11 (text.data.drop i) = some t →
        (∀ j, j < i → grab11 (text.data.drop j) = none) →
        extract_id text = some (String.mk t))
    ∧ ((∀ p ∈ claimPatterns, ∀ i, tryPat p (text.data.drop i) = none) →
        (∀ i, grab11 (text.data.drop i) = none) →
        extract_id text = none) := by
  have hfive : (∀ p ∈ claimPatterns, ∀ i, tryPat p (text.data.drop i) = none) →
      ∀ p ∈ url_patterns, ∀ i, tryPat p (text.data.drop i) = none := by
    intro h4 p hp i
    rcases url_patterns_cases p hp with hc | rfl
    · exact h4 p hc i
    · cases hw : tryPat watchPat (text.data.drop i) with
      | none => rfl
      | some u =>
        have hv := tryPat_watch_to_v text.data i u hw
        have : tryPat vPat (text.data.drop (i + 6)) = none :=
          h4 vPat (by simp [claimPatterns]) (i + 6)
        rw [hv] at this
        exact absurd this (Option.some_ne_none u)
  refine ⟨?_, ?_, ?_, ?_⟩
  · intro i t hm hmin
    have hv : searchPat vPat text.data = some t := searchPat_some_of vPat text.data i t hm hmin
    have hfirst : firstPatMatch url_patterns text.data = some t := by
      simp [url_patterns, firstPatMatch, hv]
    simp [extract_id, extract_core, hfirst]
  · rintro ⟨p, hp, i, t, hpt⟩
    have hsne : searchPat p text.data ≠ none := by
      intro hnone
      have := (searchPat_none_iff p text.data).mp hnone i
      rw [hpt] at this
      exact absurd this (Option.some_ne_none t)
    rcases Option.ne_none_iff_exists'.mp hsne with ⟨u, hu⟩
    rcases firstPatMatch_isSome url_patterns text.data p (claimPatterns_sub p hp) u hu
      with ⟨w, hw⟩
    rcases firstPatMatch_some_exists url_patterns text.data w hw with ⟨q, hq, hsq⟩
    have hext : extract_id text = some (String.mk w) := by
      simp [extract_id, extract_core, hw]
    rcases searchPat_some_exists q text.data w hsq with ⟨k, hk⟩
    rcases url_patterns_cases q hq with hqc | rfl
    · exact ⟨q, hqc, k, w, hk, hext⟩
    · exact ⟨vPat, by simp [claimPatterns], k + 6, w, tryPat_watch_to_v text.data k w hk, hext⟩
  · intro h4 i t hg hmin
    have hfirst : firstPatMatch url_patterns text.data = none :=
      (firstPatMatch_none_iff url_patterns text.data).mpr
        (fun p hp => (searchPat_none_iff p text.data).mpr (hfive h4 p hp))
    have hm : tryPat [] (text.data.drop i) = some t := by rw [tryPat_nil]; exact hg
    have hmin2 : ∀ j, j < i → tryPat [] (text.data.drop j) = none := by
      intro j hj
      rw [tryPat_nil]
      exact hmin j hj
    have hfb : searchPat [] text.data = some t :=
      searchPat_some_of [] text.data i t hm hmin2
    simp [extract_id, extract_core, hfirst, hfb]
  · intro h4 hgnone
    have hfirst : firstPatMatch url_patterns text.data = none :=
      (firstPatMatch_none_iff url_patterns text.data).mpr
        (fun p hp => (searchPat_none_iff p text.data).mpr (hfive h4 p hp))
    have hfb : searchPat [] text.data = none := by
      rw [searchPat_none_iff]
      intro i
      rw [tryPat_nil]
      exact hgnone i
    simp [extract_id, extract_core, hfirst, hfb]

/-- C3 witness: the algorithm theorem at a concrete input — the `v=` token
embedded in noise is returned exactly (leftmost `v=` match at position 6). -/
theorem C3_witness :
    extract_id "noise v=abcdefghijk more" = some "abcdefghijk" :=
  (C3_extract_algorithm "noise v=abcdefghijk more").1 6 "abcdefghijk".data
    (by decide) (by decide)

/-- C9 witness: the amended theorem at concrete inputs — each subscriber
accepts its own single code. -/
theorem C9_witness :
    subscribe_to_channel (HubReply.status 202) = true
    ∧ WebSub_subscribe "https://cb.example.com/webhook" (HubReply.status 204) = true := by
  have h := C9_subscribe_amended 202 "https://cb.example.com/webhook" "net down"
  have h2 := C9_subscribe_amended 204 "https://cb.example.com/webhook" "net down"
  exact ⟨h.1.mpr rfl, h2.2.2.1.mpr ⟨by decide, rfl⟩⟩

/-- C8 witness: the zero-event theorem at a concrete always-raising pipeline. -/
theorem C8_witness :
    (youtube_webhook_post (fun _ => Except.error "boom") SfBody.notJson).processed_videos = []
    ∧ (webhook_legacy_post (fun _ => Except.error "boom") XmlBody.malformed).status = 400 :=
  ⟨(C8_zero_events (fun _ => Except.error "boom")).1.1,
    (C8_zero_events (fun _ => Except.error "boom")).2.2.2⟩
